import Mathlib

/-!
# Verification of the AVI camera recorder (avicam2.0.ino)

A shallow embedding of the AVI-writer / recording-session core of the
ESP32-CAM firmware `src/avicam2.0.ino`.  The on-medium file is a `List Nat`
of byte values; storage faults (short writes) are injected through a
schedule of per-write caps carried in the state.  Multi-byte fields are
little-endian 32-bit values, modelled as `Nat` with explicit `% 2^32`.

Modelled functions (names follow the source):
* `writeAVIHeader`  — src lines 1107–1245
* `updateAVIHeader` — src lines 1247–1271
* `startRecording`  — src lines 687–905
* `stopRecording`   — src lines 907–970
* `captureFrame`    — src lines 972–1105
* `triggerPoll`     — the edge detector inside `loop`, src lines 659–676
-/

/-- `AVI_HEADER_SIZE` constant (src line 116). -/
def AVI_HEADER_SIZE : Nat := 512

/-- The four little-endian bytes of a 32-bit value, as `memcpy(dst, &v, 4)`
stores them for a little-endian `uint32_t`. -/
def le32 (n : Nat) : List Nat :=
  [n % 256, n / 256 % 256, n / 65536 % 256, n / 16777216 % 256]

/-- The two little-endian bytes of a 16-bit value. -/
def le16 (n : Nat) : List Nat :=
  [n % 256, n / 256 % 256]

/-- `memcpy(buf + pos, src, src.length)` on a byte buffer. -/
def overwrite (l : List Nat) (pos : Nat) (src : List Nat) : List Nat :=
  l.take pos ++ src ++ l.drop (pos + src.length)

/-- The 512-byte header buffer built by `writeAVIHeader` (src lines 1107–1212):
`memset` to zero, then the exact sequence of `memcpy` calls of the source.
`fc` is the global `frameCount` and `stt` the global `startTime` at the time
the header is built (the source copies both globals into the buffer). -/
def mkAVIHeader (fc stt : Nat) : List Nat :=
  let h := List.replicate AVI_HEADER_SIZE 0
  let h := overwrite h 0 [82, 73, 70, 70]        -- "RIFF"
  let h := overwrite h 4 (le32 0)                -- aviFileSize placeholder
  let h := overwrite h 8 [65, 86, 73, 32]        -- "AVI "
  let h := overwrite h 12 [76, 73, 83, 84]       -- "LIST"
  let h := overwrite h 16 (le32 120)             -- hdrlSize = 8+56+8+8+40
  let h := overwrite h 20 [104, 100, 114, 108]   -- "hdrl"
  let h := overwrite h 24 [97, 118, 105, 104]    -- "avih"
  let h := overwrite h 28 (le32 56)              -- avihSize
  let h := overwrite h 32 (le32 33333)           -- microSecondsPerFrame
  let h := overwrite h 36 (le32 1000000)         -- maxBytesPerSecond
  let h := overwrite h 40 (le32 0)               -- paddingGranularity
  let h := overwrite h 44 (le32 16)              -- aviFlags = 0x10
  let h := overwrite h 48 (le32 fc)              -- global frameCount
  let h := overwrite h 52 (le32 0)               -- initialFrames
  let h := overwrite h 56 (le32 1)               -- streams
  let h := overwrite h 60 (le32 0)               -- suggestedBufferSize
  let h := overwrite h 64 (le32 640)             -- width
  let h := overwrite h 68 (le32 480)             -- height
  let h := overwrite h 72 (List.replicate 16 0)  -- reserved
  let h := overwrite h 88 [76, 73, 83, 84]       -- "LIST"
  let h := overwrite h 92 (le32 104)             -- strlSize = 8+56+40
  let h := overwrite h 96 [115, 116, 114, 108]   -- "strl"
  let h := overwrite h 100 [115, 116, 114, 104]  -- "strh"
  let h := overwrite h 104 (le32 56)             -- strhSize
  let h := overwrite h 108 [118, 105, 100, 115]  -- "vids"
  let h := overwrite h 112 (le32 1196444237)     -- codec "MJPG"
  let h := overwrite h 116 (le32 0)              -- streamFlags
  let h := overwrite h 120 (le32 0)              -- priority
  let h := overwrite h 124 (le32 1000000)        -- timeScale
  let h := overwrite h 128 (le32 1000000)        -- sampleRate
  let h := overwrite h 132 (le32 stt)            -- global startTime
  let h := overwrite h 136 (le32 0)              -- length placeholder
  let h := overwrite h 140 (le32 0)              -- suggestedBufferSize
  let h := overwrite h 144 (le32 10000)          -- quality
  let h := overwrite h 148 (le32 0)              -- sampleSize
  let h := overwrite h 152 (List.replicate 16 0) -- frameRect
  let h := overwrite h 156 [115, 116, 114, 102]  -- "strf"
  let h := overwrite h 160 (le32 40)             -- strfSize
  let h := overwrite h 164 (le32 40)             -- biSize
  let h := overwrite h 168 (le32 640)            -- width
  let h := overwrite h 172 (le32 480)            -- height
  let h := overwrite h 176 (le16 1)              -- biPlanes
  let h := overwrite h 178 (le16 24)             -- bitCount
  let h := overwrite h 180 (le32 1196444237)     -- compression "MJPG"
  let h := overwrite h 184 (le32 0)              -- imageSize
  let h := overwrite h 188 (le32 0)              -- xPelsPerMeter
  let h := overwrite h 192 (le32 0)              -- yPelsPerMeter
  let h := overwrite h 196 (le32 0)              -- colorsUsed
  let h := overwrite h 200 (le32 0)              -- colorsImportant
  h

/-- The global recorder state (src lines 108–117): the recording flag, the
frame counter, the start timestamp, the current file name, and the open
byte contents of the open `videoFile`.  `caps` is a fault schedule for writes:
each write consumes the head cap; `none` means the full buffer is accepted,
`some c` means the medium accepts at most `c` bytes (a short write). -/
structure CamState where
  isRecording : Bool
  frameCount : Nat
  startTime : Nat
  currentVideoName : String
  file : List Nat
  caps : List (Option Nat)

/-- Pop the next write cap from the fault schedule. -/
def nextCap : List (Option Nat) → Option Nat × List (Option Nat)
  | [] => (none, [])
  | c :: rest => (c, rest)

/-- Bytes actually written given a cap and the requested length. -/
def capBytes : Option Nat → Nat → Nat
  | none, len => len
  | some c, len => min c len

/-- `videoFile.write(data, data.length)` at the end of the file (during
recording the position is always end-of-file: the file is opened fresh and
only sequential writes occur).  Returns the updated state and the number of
bytes actually written. -/
def fwrite (st : CamState) (data : List Nat) : CamState × Nat :=
  let cap := (nextCap st.caps).1
  let rest := (nextCap st.caps).2
  let n := capBytes cap data.length
  ({ st with file := st.file ++ data.take n, caps := rest }, n)

/-- `videoFile.seek(pos); videoFile.write(data, data.length)`: an in-place
write at offset `pos`. -/
def fwriteAt (st : CamState) (pos : Nat) (data : List Nat) : CamState × Nat :=
  let cap := (nextCap st.caps).1
  let rest := (nextCap st.caps).2
  let n := capBytes cap data.length
  ({ st with file := overwrite st.file pos ((data.take n)), caps := rest }, n)

/-- `writeAVIHeader` (src lines 1107–1245): builds the 512-byte header from
the current globals, writes it, and — if the header write was complete —
writes the `512 - AVI_HEADER_SIZE = 0`-byte padding buffer.  A short header
write returns early (src line 1226–1229) leaving the partial header bytes in
the file.  The trailing `flush` has no effect on contents. -/
def writeAVIHeader (st : CamState) : CamState :=
  let header := mkAVIHeader st.frameCount st.startTime
  let w := fwrite st header
  if w.2 = AVI_HEADER_SIZE then
    (fwrite w.1 (List.replicate (512 - AVI_HEADER_SIZE) 0)).1
  else w.1

/-- `updateAVIHeader` (src lines 1247–1271): patch the RIFF size at offset 4
with `videoFile.size() - 8` (32-bit wrap), and the two frame-count fields at
offsets 48 and 136 with the global `frameCount`.  Return values of the three
writes are not checked by the source. -/
def updateAVIHeader (st : CamState) : CamState :=
  let riffSize := (st.file.length + 4294967288) % 4294967296
  let fc := st.frameCount
  let st1 := (fwriteAt st 4 (le32 riffSize)).1
  let st2 := (fwriteAt st1 48 (le32 fc)).1
  (fwriteAt st2 136 (le32 fc)).1

/-- `startRecording` (src lines 687–905).  Early-returns if already
recording (line 688).  `storageOk` summarises the SD-card presence and
write-permission tests (lines 700–750): when any fails, the function returns
with the session still idle (the file name has already been derived, line
697).  Otherwise the target file is created empty, `writeAVIHeader` runs
(its failure is only logged, lines 886–894), and the function
unconditionally sets `frameCount = 0`, `startTime`, `isRecording = true`
(lines 896–899). -/
def startRecording (st : CamState) (now : Nat) (storageOk : Bool) : CamState :=
  if st.isRecording then st
  else
    let st1 := { st with currentVideoName := "/video_" ++ toString now ++ ".avi" }
    if storageOk then
      let st2 := writeAVIHeader { st1 with file := [] }
      { st2 with frameCount := 0, startTime := now, isRecording := true }
    else st1

/-- `stopRecording` (src lines 907–970): early-return when idle (line 908),
otherwise clear `isRecording` first (line 917) and then patch the header via
`updateAVIHeader`; flushing and closing do not change contents. -/
def stopRecording (st : CamState) : CamState :=
  if st.isRecording then
    updateAVIHeader { st with isRecording := false }
  else st

/-- `captureFrame` (src lines 972–1105).  `fileOk` summarises the
file-handle validity / writability / existence checks of the preamble
(lines 976–1054), whose early returns all happen before the frame buffer is
acquired.  `fb` is the result of `esp_camera_fb_get()` (`none` = no frame).
The returned `Nat` counts the `esp_camera_fb_return` calls made.  On a
zero-length frame: release and return (lines 1064–1068).  On a short write:
release and return, leaving `isRecording` and `frameCount` untouched (lines
1072–1088).  On success: increment `frameCount`, flush every 10th frame (no
content effect), release (lines 1091–1104). -/
def captureFrame (st : CamState) (fileOk : Bool) (fb : Option (List Nat)) :
    CamState × Nat :=
  if st.isRecording then
    if fileOk then
      match fb with
      | none => (st, 0)
      | some buf =>
        if buf.length = 0 then (st, 1)
        else
          let w := fwrite st buf
          if w.2 = buf.length then
            ({ w.1 with frameCount := w.1.frameCount + 1 }, 1)
          else (w.1, 1)
    else (st, 0)
  else (st, 0)

/-- One poll of the trigger edge detector in `loop` (src lines 663–675):
given the previous observed level and the freshly read level (`true` =
HIGH), return whether a toggle fires and the stored level for the next
poll.  A toggle fires exactly on a HIGH-to-LOW transition. -/
def triggerPoll (last cur : Bool) : Bool × Bool :=
  (last && !cur, cur)

/-- Fold `triggerPoll` over a sequence of polled levels, collecting the
toggle events; the source initialises `lastTriggerState = HIGH`. -/
def triggerEvents : Bool → List Bool → List Bool
  | _, [] => []
  | last, cur :: rest =>
    (triggerPoll last cur).1 :: triggerEvents (triggerPoll last cur).2 rest

/-- The capture steps of the scheduler while recording: one `captureFrame` per
delivered camera buffer. -/
def runFrames (st : CamState) (frames : List (List Nat)) : CamState :=
  frames.foldl (fun s f => (captureFrame s true (some f)).1) st

/-- A whole recording session: start, capture the given frames, stop. -/
def recordRun (init : CamState) (now : Nat) (frames : List (List Nat)) :
    CamState :=
  stopRecording (runFrames (startRecording init now true) frames)

/-- Byte of a file at an offset (0 past the end). -/
def byteAt (l : List Nat) (i : Nat) : Nat := l.getD i 0

/-- The 32-bit little-endian value stored at a file offset. -/
def readLE32 (l : List Nat) (off : Nat) : Nat :=
  byteAt l off + 256 * byteAt l (off + 1) + 65536 * byteAt l (off + 2) +
    16777216 * byteAt l (off + 3)

/-! ## Basic byte-buffer lemmas -/

theorem le32_length (n : Nat) : (le32 n).length = 4 := rfl

/-- Length of an `overwrite`, with no side condition. -/
theorem length_overwrite_eq (l : List Nat) (pos : Nat) (src : List Nat) :
    (overwrite l pos src).length =
      min pos l.length + src.length + (l.length - (pos + src.length)) := by
  simp [overwrite]
  omega

theorem le16_length (n : Nat) : (le16 n).length = 2 := rfl

theorem take_four_le32 (v : Nat) : List.take 4 (le32 v) = le32 v := rfl

set_option maxRecDepth 4096 in
theorem mkAVIHeader_length (fc stt : Nat) : (mkAVIHeader fc stt).length = 512 := by
  simp only [mkAVIHeader, length_overwrite_eq, le32_length, le16_length,
    List.length_replicate, List.length_cons, List.length_nil, AVI_HEADER_SIZE]
  decide

theorem byteAt_eq (l : List Nat) (i : Nat) : byteAt l i = (l[i]?).getD 0 := by
  simp [byteAt, List.getD_eq_getElem?_getD]

theorem length_overwrite (l : List Nat) (pos : Nat) (src : List Nat)
    (h : pos + src.length ≤ l.length) :
    (overwrite l pos src).length = l.length := by
  simp only [overwrite, List.length_append, List.length_take, List.length_drop]
  omega

theorem byteAt_overwrite_lt (l : List Nat) (pos : Nat) (src : List Nat) (i : Nat)
    (hp : pos ≤ l.length) (h : i < pos) :
    byteAt (overwrite l pos src) i = byteAt l i := by
  rw [byteAt_eq, byteAt_eq, overwrite]
  rw [List.getElem?_append_left (by simp only [List.length_append, List.length_take]; omega)]
  rw [List.getElem?_append_left (by simp only [List.length_take]; omega)]
  rw [List.getElem?_take_of_lt h]

theorem byteAt_overwrite_ge (l : List Nat) (pos : Nat) (src : List Nat) (i : Nat)
    (hp : pos ≤ l.length) (h : pos + src.length ≤ i) :
    byteAt (overwrite l pos src) i = byteAt l i := by
  rw [byteAt_eq, byteAt_eq, overwrite]
  rw [List.getElem?_append_right (by simp only [List.length_append, List.length_take]; omega)]
  rw [List.getElem?_drop]
  congr 2
  simp only [List.length_append, List.length_take]
  omega

theorem byteAt_overwrite_inside (l : List Nat) (pos : Nat) (src : List Nat) (i : Nat)
    (hp : pos ≤ l.length) (h1 : pos ≤ i) (h2 : i < pos + src.length) :
    byteAt (overwrite l pos src) i = byteAt src (i - pos) := by
  rw [byteAt_eq, byteAt_eq, overwrite]
  rw [List.getElem?_append_left (by simp only [List.length_append, List.length_take]; omega)]
  rw [List.getElem?_append_right (by simp only [List.length_take]; omega)]
  congr 2
  simp only [List.length_take]
  omega

theorem le32_readback (v : Nat) :
    byteAt (le32 v) 0 + 256 * byteAt (le32 v) 1 + 65536 * byteAt (le32 v) 2 +
      16777216 * byteAt (le32 v) 3 = v % 4294967296 := by
  simp [le32, byteAt]
  omega

theorem readLE32_overwrite_le32 (l : List Nat) (pos v : Nat)
    (hp : pos + 4 ≤ l.length) :
    readLE32 (overwrite l pos (le32 v)) pos = v % 4294967296 := by
  have h0 : byteAt (overwrite l pos (le32 v)) pos = byteAt (le32 v) 0 := by
    rw [byteAt_overwrite_inside l pos (le32 v) pos (by omega) (by omega)
      (by rw [le32_length]; omega), Nat.sub_self]
  have h1 : byteAt (overwrite l pos (le32 v)) (pos + 1) = byteAt (le32 v) 1 := by
    rw [byteAt_overwrite_inside l pos (le32 v) (pos + 1) (by omega) (by omega)
      (by rw [le32_length]; omega), Nat.add_sub_cancel_left]
  have h2 : byteAt (overwrite l pos (le32 v)) (pos + 2) = byteAt (le32 v) 2 := by
    rw [byteAt_overwrite_inside l pos (le32 v) (pos + 2) (by omega) (by omega)
      (by rw [le32_length]; omega), Nat.add_sub_cancel_left]
  have h3 : byteAt (overwrite l pos (le32 v)) (pos + 3) = byteAt (le32 v) 3 := by
    rw [byteAt_overwrite_inside l pos (le32 v) (pos + 3) (by omega) (by omega)
      (by rw [le32_length]; omega), Nat.add_sub_cancel_left]
  rw [readLE32, h0, h1, h2, h3, le32_readback]

theorem readLE32_overwrite_of_disjoint (l : List Nat) (pos : Nat) (src : List Nat)
    (off : Nat) (hp : pos ≤ l.length)
    (h : off + 4 ≤ pos ∨ pos + src.length ≤ off) :
    readLE32 (overwrite l pos src) off = readLE32 l off := by
  rcases h with h | h
  · rw [readLE32, readLE32,
      byteAt_overwrite_lt l pos src off hp (by omega),
      byteAt_overwrite_lt l pos src (off + 1) hp (by omega),
      byteAt_overwrite_lt l pos src (off + 2) hp (by omega),
      byteAt_overwrite_lt l pos src (off + 3) hp (by omega)]
  · rw [readLE32, readLE32,
      byteAt_overwrite_ge l pos src off hp (by omega),
      byteAt_overwrite_ge l pos src (off + 1) hp (by omega),
      byteAt_overwrite_ge l pos src (off + 2) hp (by omega),
      byteAt_overwrite_ge l pos src (off + 3) hp (by omega)]

/-! ## Behaviour of the session operations -/

theorem captureFrame_success (st : CamState) (buf : List Nat)
    (hrec : st.isRecording = true) (hcaps : st.caps = []) (hne : buf ≠ []) :
    captureFrame st true (some buf) =
      ({ st with
          frameCount := st.frameCount + 1
          file := st.file ++ buf
          caps := [] }, 1) := by
  have hlen : buf.length ≠ 0 := by simpa using hne
  simp [captureFrame, fwrite, nextCap, capBytes, hrec, hcaps, hlen, List.take_length]

theorem runFrames_spec (frames : List (List Nat)) : ∀ st : CamState,
    st.isRecording = true → st.caps = [] → (∀ f ∈ frames, f ≠ []) →
    runFrames st frames =
      { st with
        frameCount := st.frameCount + frames.length
        file := st.file ++ frames.flatten } := by
  induction frames with
  | nil =>
    intro st _ _ _
    simp [runFrames]
  | cons f rest ih =>
    intro st h1 h2 h3
    have hf : f ≠ [] := h3 f (by simp)
    have hrest : ∀ g ∈ rest, g ≠ [] := fun g hg => h3 g (by simp [hg])
    have step : runFrames st (f :: rest) =
        runFrames
          { st with
            frameCount := st.frameCount + 1
            file := st.file ++ f
            caps := [] } rest := by
      simp [runFrames, captureFrame_success st f h1 h2 hf]
    rw [step]
    have ihs := ih
      { st with
        frameCount := st.frameCount + 1
        file := st.file ++ f
        caps := [] } h1 rfl hrest
    rw [ihs]
    simp [h2, CamState.mk.injEq, List.append_assoc]
    omega

theorem startRecording_spec (st : CamState) (now : Nat)
    (h1 : st.isRecording = false) (h2 : st.caps = []) :
    startRecording st now true =
      { isRecording := true
        frameCount := 0
        startTime := now
        currentVideoName := "/video_" ++ toString now ++ ".avi"
        file := mkAVIHeader st.frameCount st.startTime
        caps := [] } := by
  simp [startRecording, writeAVIHeader, fwrite, nextCap, capBytes, h1, h2,
    mkAVIHeader_length, AVI_HEADER_SIZE, List.take_length]

theorem stopRecording_spec (st : CamState)
    (h1 : st.isRecording = true) (h2 : st.caps = []) :
    stopRecording st =
      { st with
        isRecording := false
        file := overwrite (overwrite (overwrite st.file 4
          (le32 ((st.file.length + 4294967288) % 4294967296))) 48
          (le32 st.frameCount)) 136 (le32 st.frameCount)
        caps := [] } := by
  simp [stopRecording, updateAVIHeader, fwriteAt, nextCap, capBytes, h1, h2,
    le32_length, take_four_le32]

/-- One whole session, with no storage faults, as a plain record. -/
theorem recordRun_spec (init : CamState) (now : Nat) (frames : List (List Nat))
    (h1 : init.isRecording = false) (h2 : init.caps = [])
    (hne : ∀ f ∈ frames, f ≠ []) :
    recordRun init now frames =
      { isRecording := false
        frameCount := frames.length
        startTime := now
        currentVideoName := "/video_" ++ toString now ++ ".avi"
        file := overwrite (overwrite (overwrite
          (mkAVIHeader init.frameCount init.startTime ++ frames.flatten) 4
          (le32 (((mkAVIHeader init.frameCount init.startTime ++
            frames.flatten).length + 4294967288) % 4294967296))) 48
          (le32 frames.length)) 136 (le32 frames.length)
        caps := [] } := by
  unfold recordRun
  rw [startRecording_spec init now h1 h2]
  rw [runFrames_spec frames
    { isRecording := true
      frameCount := 0
      startTime := now
      currentVideoName := "/video_" ++ toString now ++ ".avi"
      file := mkAVIHeader init.frameCount init.startTime
      caps := [] } rfl rfl hne]
  rw [stopRecording_spec _ (by rfl) (by rfl)]
  simp

/-- Bytes outside the written window are untouched by a seek-and-write, and
the length is preserved, for any fault schedule. -/
theorem fwriteAt_outside (st : CamState) (pos : Nat) (data : List Nat) (i : Nat)
    (hlen : pos + data.length ≤ st.file.length)
    (hi : i < pos ∨ pos + data.length ≤ i) :
    byteAt (fwriteAt st pos data).1.file i = byteAt st.file i ∧
    (fwriteAt st pos data).1.file.length = st.file.length := by
  have e : (fwriteAt st pos data).1.file =
      overwrite st.file pos
        (data.take (capBytes (nextCap st.caps).1 data.length)) := rfl
  have htake : (data.take (capBytes (nextCap st.caps).1 data.length)).length ≤
      data.length := by
    simp [List.length_take]
  rw [e]
  refine ⟨?_, length_overwrite _ _ _ (by omega)⟩
  rcases hi with h | h
  · exact byteAt_overwrite_lt _ _ _ _ (by omega) h
  · exact byteAt_overwrite_ge _ _ _ _ (by omega) (by omega)

/-- Concrete states used by the witnesses and counterexamples. -/
def initSt : CamState :=
  { isRecording := false, frameCount := 0, startTime := 0,
    currentVideoName := "", file := [], caps := [] }

def recSt : CamState :=
  { isRecording := true, frameCount := 3, startTime := 7,
    currentVideoName := "/video_7.avi", file := [1, 2, 3], caps := [] }

def hdrSt : CamState :=
  { isRecording := true, frameCount := 2, startTime := 7,
    currentVideoName := "/video_7.avi", file := List.replicate 512 0,
    caps := [] }

def shortSt : CamState :=
  { isRecording := true, frameCount := 5, startTime := 7,
    currentVideoName := "/video_7.avi", file := List.replicate 512 0,
    caps := [some 1] }

def cexInit : CamState :=
  { isRecording := false, frameCount := 0, startTime := 0,
    currentVideoName := "", file := [], caps := [none, none, some 0] }

def c3Init : CamState :=
  { isRecording := false, frameCount := 0, startTime := 0,
    currentVideoName := "", file := [], caps := [some 100] }

/-- A second `startRecording` issued right after a one-frame session ended. -/
def twoSessionStart : CamState :=
  startRecording (recordRun initSt 100 [[7]]) 200 true

/-! ## Claims -/

set_option maxRecDepth 100000

/-- C7: The trigger debouncer, starting with last-seen level High, emits a
toggle event on a poll if and only if the previous observed level was High
and the current polled level is Low; no event is emitted on Low-to-High or
repeated-Low polls.  Feeding the poll sequence
[High, High, Low, Low, High, Low] yields toggle events exactly at the 3rd
and 6th polls. -/
theorem C7_trigger_edge_detection (last cur : Bool) :
    ((triggerPoll last cur).1 = true ↔ last = true ∧ cur = false) ∧
    triggerEvents true [true, true, false, false, true, false] =
      [false, false, true, false, false, true] := by
  constructor
  · cases last <;> cases cur <;> simp [triggerPoll]
  · rfl

/-- C8: `start()` called while the session is already Recording is an
idempotent no-op: the whole state — including `frameCount`,
`currentVideoName`, the file contents and the untouched fault schedule
(no storage operations are performed) — is unchanged. -/
theorem C8_start_noop_while_recording (st : CamState) (now : Nat) (ok : Bool)
    (h : st.isRecording = true) :
    startRecording st now ok = st := by
  simp [startRecording, h]

theorem C8_witness : startRecording recSt 99 true = recSt :=
  C8_start_noop_while_recording recSt 99 true rfl

/-- C9: a zero-length frame buffer acquired while Recording leaves the
state — in particular `frameCount` and `isRecording` — unchanged, releases
the buffer once, and reports no error. -/
theorem C9_zero_length_frame_noop (st : CamState)
    (h : st.isRecording = true) :
    captureFrame st true (some []) = (st, 1) := by
  simp [captureFrame, h]

theorem C9_witness : captureFrame recSt true (some []) = (recSt, 1) :=
  C9_zero_length_frame_noop recSt rfl

/-- C6: whenever `captureFrame` acquires a frame buffer (the session is
recording, the file-handle checks pass, and the camera returns a buffer),
the buffer is released exactly once before the call returns — on the
zero-length path, the short-write path and the success path alike. -/
theorem C6_buffer_released_once (st : CamState) (buf : List Nat)
    (h : st.isRecording = true) :
    (captureFrame st true (some buf)).2 = 1 := by
  simp [captureFrame, h]
  split
  · rfl
  · split
    · rfl
    · rfl

theorem C6_witness : (captureFrame recSt true (some [1, 2, 3])).2 = 1 :=
  C6_buffer_released_once recSt [1, 2, 3] rfl

/-- C1 counterexample: in a reachable recording session (fresh start with a
fully written header), a short frame write (the medium accepts 0 of 3 bytes)
leaves the session RECORDING — `isRecording` is still `true` right after
`captureFrame` returns, so the claimed forced transition to Idle does not
happen. -/
theorem C1_counterexample_short_write_not_idle :
    (captureFrame (startRecording cexInit 0 true) true
      (some [1, 2, 3])).1.isRecording = true := by decide

/-- C1 (amended): on a short/failed frame write `captureFrame` releases the
buffer exactly once and returns without counting the frame
(`frameCount` unchanged), but the session is NOT forced to Idle:
`isRecording` keeps its previous value, and nothing stops further frames
from being appended on later calls. -/
theorem C1_short_write_keeps_recording (st : CamState) (buf : List Nat)
    (c : Nat) (hrec : st.isRecording = true) (hcaps : st.caps = [some c])
    (hshort : c < buf.length) :
    (captureFrame st true (some buf)).1.isRecording = true ∧
    (captureFrame st true (some buf)).1.frameCount = st.frameCount ∧
    (captureFrame st true (some buf)).2 = 1 := by
  have hne : ¬buf.length = 0 := by omega
  have hmin : ¬min c buf.length = buf.length := by omega
  simp [captureFrame, fwrite, nextCap, capBytes, hrec, hcaps, hne, hmin]

theorem C1_witness :
    (captureFrame shortSt true (some [1, 2, 3])).1.isRecording = true ∧
    (captureFrame shortSt true (some [1, 2, 3])).1.frameCount = 5 ∧
    (captureFrame shortSt true (some [1, 2, 3])).2 = 1 :=
  C1_short_write_keeps_recording shortSt [1, 2, 3] 1 rfl rfl (by decide)

/-- C3 counterexample: when the header write is short (the medium accepts
100 of the 512 header bytes), `startRecording` still transitions to
Recording — `isRecording` ends up `true` with only a 100-byte partial header
on the medium, so the claimed abort of the Idle-to-Recording transition does
not happen. -/
theorem C3_counterexample_short_header_still_records :
    (startRecording c3Init 0 true).isRecording = true ∧
    (startRecording c3Init 0 true).file.length = 100 := by decide

/-- C3 (amended): on a short header write, `writeAVIHeader` returns early
(the padding is never written and the file keeps only the partial header
bytes), but `start()` does NOT abort the transition: it still resets
`frameCount` and sets the session to Recording; the failure is only logged,
not reported, and the session does not stay Idle. -/
theorem C3_short_header_transition_not_aborted (st : CamState) (now c : Nat)
    (h1 : st.isRecording = false) (h2 : st.caps = [some c]) (hc : c < 512) :
    (startRecording st now true).isRecording = true ∧
    (startRecording st now true).frameCount = 0 ∧
    (startRecording st now true).file.length = c := by
  have hmin : ¬min c 512 = 512 := by omega
  simp [startRecording, writeAVIHeader, fwrite, nextCap, capBytes, h1, h2,
    mkAVIHeader_length, AVI_HEADER_SIZE, hmin, List.length_take]
  omega

theorem C3_witness :
    (startRecording c3Init 5 true).isRecording = true ∧
    (startRecording c3Init 5 true).frameCount = 0 ∧
    (startRecording c3Init 5 true).file.length = 100 :=
  C3_short_header_transition_not_aborted c3Init 5 100 rfl rfl (by decide)

/-- C4 (code bug): start a session, record one frame, stop, then start a
second session.  Immediately after `writeAVIHeader` of the second session —
a reachable state between `writeHeader` and `finalize` — the avih
total-frames field at offset 48 of the fresh header holds 1 (the frame
count of the PREVIOUS session, because the source copies the global `frameCount`
into the header before `startRecording` resets it), not the zero
placeholder that the claim (and the placeholder comment of the source at line
1166) promises.  Offsets 4 and 136 do hold zero. -/
theorem C4_second_session_header_not_zeroed :
    twoSessionStart.isRecording = true ∧
    readLE32 twoSessionStart.file 48 = 1 ∧
    readLE32 twoSessionStart.file 4 = 0 ∧
    readLE32 twoSessionStart.file 136 = 0 := by decide

/-- C10: with the file freshly created (empty) and no storage fault, a
successful `writeHeader` leaves the file holding exactly the 512-byte
header buffer (the padding write is zero-length since
`AVI_HEADER_SIZE = 512`): the file size is exactly 512 immediately after,
so the first appended frame payload begins at offset 512. -/
theorem C10_header_writes_exactly_512 (st : CamState)
    (h1 : st.caps = []) (h2 : st.file = []) :
    (writeAVIHeader st).file = mkAVIHeader st.frameCount st.startTime ∧
    (writeAVIHeader st).file.length = 512 := by
  have e : (writeAVIHeader st).file = mkAVIHeader st.frameCount st.startTime := by
    simp [writeAVIHeader, fwrite, nextCap, capBytes, h1, h2,
      mkAVIHeader_length, AVI_HEADER_SIZE, List.take_length]
  exact ⟨e, by rw [e, mkAVIHeader_length]⟩

theorem C10_witness :
    (writeAVIHeader initSt).file = mkAVIHeader 0 0 ∧
    (writeAVIHeader initSt).file.length = 512 :=
  C10_header_writes_exactly_512 initSt rfl rfl

/-- C5: `finalize` (`updateAVIHeader`) modifies only the three 4-byte
fields at offsets 4, 48 and 136: every byte outside those windows — the
rest of the header region and every appended frame payload byte (offsets
≥ 512 ⊆ ≥ 140) — is unchanged, and the file length is preserved, under any
fault schedule. -/
theorem C5_finalize_touches_only_patched_fields (st : CamState) (i : Nat)
    (hlen : 140 ≤ st.file.length)
    (hi : i < 4 ∨ 8 ≤ i ∧ i < 48 ∨ 52 ≤ i ∧ i < 136 ∨ 140 ≤ i) :
    byteAt (updateAVIHeader st).file i = byteAt st.file i ∧
    (updateAVIHeader st).file.length = st.file.length := by
  have e : updateAVIHeader st =
      (fwriteAt (fwriteAt (fwriteAt st 4
        (le32 ((st.file.length + 4294967288) % 4294967296))).1 48
        (le32 st.frameCount)).1 136 (le32 st.frameCount)).1 := rfl
  have h1 := fwriteAt_outside st 4
    (le32 ((st.file.length + 4294967288) % 4294967296)) i
    (by simp only [le32_length]; omega)
    (by simp only [le32_length]; omega)
  have h2 := fwriteAt_outside
    (fwriteAt st 4 (le32 ((st.file.length + 4294967288) % 4294967296))).1 48
    (le32 st.frameCount) i
    (by simp only [le32_length, h1.2]; omega)
    (by simp only [le32_length]; omega)
  have h3 := fwriteAt_outside
    (fwriteAt (fwriteAt st 4
      (le32 ((st.file.length + 4294967288) % 4294967296))).1 48
      (le32 st.frameCount)).1 136 (le32 st.frameCount) i
    (by simp only [le32_length, h2.2, h1.2]; omega)
    (by simp only [le32_length]; omega)
  rw [e]
  exact ⟨h3.1.trans (h2.1.trans h1.1), h3.2.trans (h2.2.trans h1.2)⟩

theorem C5_witness :
    byteAt (updateAVIHeader hdrSt).file 0 = byteAt hdrSt.file 0 ∧
    (updateAVIHeader hdrSt).file.length = hdrSt.file.length :=
  C5_finalize_touches_only_patched_fields hdrSt 0 (by decide) (by decide)

/-- The contents of the file produced by one fault-free session. -/
theorem recordRun_file (init : CamState) (now : Nat) (frames : List (List Nat))
    (h1 : init.isRecording = false) (h2 : init.caps = [])
    (hne : ∀ f ∈ frames, f ≠ []) :
    (recordRun init now frames).file =
      overwrite (overwrite (overwrite
        (mkAVIHeader init.frameCount init.startTime ++ frames.flatten) 4
        (le32 (((mkAVIHeader init.frameCount init.startTime ++
          frames.flatten).length + 4294967288) % 4294967296))) 48
        (le32 frames.length)) 136 (le32 frames.length) := by
  rw [recordRun_spec init now frames h1 h2 hne]

/-- C2: for every N ≥ 0, after `writeHeader`, N successful `appendFrame`
calls and `finalize` (one fault-free `start`/capture/`stop` session), the
little-endian fields at offsets 48 (avih total-frames) and 136 (strh
length) both equal N, the field at offset 4 (RIFF size) equals the final
file size minus 8, and the file size is the 512-byte header region plus the
payload bytes — so for N = 0 the count fields are 0 and the RIFF size is
the header region size minus 8. -/
theorem C2_finalized_fields_match_frame_count (init : CamState) (now : Nat)
    (frames : List (List Nat))
    (h1 : init.isRecording = false) (h2 : init.caps = [])
    (hne : ∀ f ∈ frames, f ≠ [])
    (hN : frames.length < 4294967296)
    (hsz : (frames.map List.length).sum + 504 < 4294967296) :
    readLE32 (recordRun init now frames).file 4 =
      (recordRun init now frames).file.length - 8 ∧
    readLE32 (recordRun init now frames).file 48 = frames.length ∧
    readLE32 (recordRun init now frames).file 136 = frames.length ∧
    (recordRun init now frames).file.length =
      512 + (frames.map List.length).sum := by
  rw [recordRun_file init now frames h1 h2 hne]
  set F := mkAVIHeader init.frameCount init.startTime ++ frames.flatten
    with hF
  have hFlen : F.length = 512 + (frames.map List.length).sum := by
    rw [hF, List.length_append, mkAVIHeader_length, List.length_flatten]
  have l4 : (overwrite F 4
      (le32 ((F.length + 4294967288) % 4294967296))).length = F.length :=
    length_overwrite _ _ _ (by simp only [le32_length]; omega)
  have l48 : (overwrite (overwrite F 4
      (le32 ((F.length + 4294967288) % 4294967296))) 48
      (le32 frames.length)).length = F.length := by
    rw [length_overwrite _ _ _ (by simp only [le32_length, l4]; omega), l4]
  have ltot : (overwrite (overwrite (overwrite F 4
      (le32 ((F.length + 4294967288) % 4294967296))) 48
      (le32 frames.length)) 136 (le32 frames.length)).length = F.length := by
    rw [length_overwrite _ _ _ (by simp only [le32_length, l48]; omega), l48]
  refine ⟨?_, ?_, ?_, ?_⟩
  · rw [ltot]
    rw [readLE32_overwrite_of_disjoint _ 136 _ 4
      (by simp only [l48]; omega) (Or.inl (by omega))]
    rw [readLE32_overwrite_of_disjoint _ 48 _ 4
      (by simp only [l4]; omega) (Or.inl (by omega))]
    rw [readLE32_overwrite_le32 _ 4 _ (by omega)]
    omega
  · rw [readLE32_overwrite_of_disjoint _ 136 _ 48
      (by simp only [l48]; omega) (Or.inl (by omega))]
    rw [readLE32_overwrite_le32 _ 48 _ (by simp only [l4]; omega)]
    omega
  · rw [readLE32_overwrite_le32 _ 136 _ (by simp only [l48]; omega)]
    omega
  · rw [ltot, hFlen]

theorem C2_witness :
    readLE32 (recordRun initSt 0 [[9, 9]]).file 4 =
      (recordRun initSt 0 [[9, 9]]).file.length - 8 ∧
    readLE32 (recordRun initSt 0 [[9, 9]]).file 48 = 1 ∧
    readLE32 (recordRun initSt 0 [[9, 9]]).file 136 = 1 ∧
    (recordRun initSt 0 [[9, 9]]).file.length = 514 :=
  C2_finalized_fields_match_frame_count initSt 0 [[9, 9]] rfl rfl
    (by decide) (by decide) (by decide)
